import Mathlib

/-
Verification of the client-side cryptographic protocol layer of the
sigil-dashboard repository (src/lib/crypto.ts, src/lib/auth.ts, the event
encryption module, and the useAuth unlock/logout flow).

The Web Crypto primitives (PBKDF2, SHA-256, AES-GCM, RSA-OAEP, getRandomValues)
are external to the repository; they are modelled in the usual DY*-style ideal
(symbolic) fashion: a ciphertext is a term recording exactly the key, iv and
plaintext that produced it, authenticated decryption succeeds exactly on a
matching ciphertext, key derivation is an ideal (collision-free) function of
its inputs, and randomness is an explicit entropy argument threaded through
the functions that call crypto.getRandomValues.  The repository's own code
(serialization, envelope assembly, defensive checks, error propagation, batch
iteration, session-storage state transitions) is translated statement by
statement.
-/

namespace Sigil

/-- JSON values (`Record<string, unknown>` entries are serialized with
`JSON.stringify` and recovered with `JSON.parse`).  Arrays and objects are
represented cons-style so the type is a plain (non-nested) inductive. -/
inductive JsonValue where
  | null
  | bool (b : Bool)
  | num (n : Int)
  | str (s : String)
  | arrNil
  | arrCons (head : JsonValue) (tail : JsonValue)
  | objNil
  | objCons (key : String) (value : JsonValue) (tail : JsonValue)
deriving DecidableEq

/-- Byte length of the UTF-8 encoding of `JSON.stringify v` (string-escape
expansion is not charged; the development only ever relies on this length
being positive, which holds for every JSON value). -/
def JsonValue.stringifyLen : JsonValue → Nat
  | .null => 4
  | .bool b => cond b 4 5
  | .num n => (toString n).length
  | .str s => s.utf8ByteSize + 2
  | .arrNil => 2
  | .arrCons e es => 1 + e.stringifyLen + es.stringifyLen
  | .objNil => 2
  | .objCons k v fs => 1 + (k.utf8ByteSize + 3) + v.stringifyLen + fs.stringifyLen

/-- Symbolic model of a WebCrypto AES-GCM `CryptoKey`.
`pbkdf2 password salt` is the key returned by `deriveKey` (PBKDF2, SHA-256,
310000 iterations, AES-GCM 256); `aesFresh seed` is a fresh key returned by
`crypto.subtle.generateKey({name:"AES-GCM", length:256})`, identified by the
randomness that generated it. -/
inductive Key where
  | pbkdf2 (password : String) (salt : List Nat)
  | aesFresh (seed : Nat)
deriving DecidableEq

/-- RSA-OAEP public key (JWK); `generateRSAKeyPair` pairs are identified by
their generation randomness. -/
structure RSAPublicKey where
  seed : Nat
deriving DecidableEq

/-- RSA-OAEP private key (JWK). -/
structure RSAPrivateKey where
  seed : Nat
deriving DecidableEq

/-- Symbolic byte strings (`Uint8Array` / `ArrayBuffer` values and the byte
content of base64 wire strings). -/
inductive Bytes where
  | raw (bytes : List Nat)
  | utf8 (s : String)
  | json (v : JsonValue)
  | jwkPriv (k : RSAPrivateKey)
  | rawKey (k : Key)
  | aesGcmCt (key : Key) (iv : Bytes) (pt : Bytes)
  | rsaOaepCt (pubSeed : Nat) (pt : Bytes)
deriving DecidableEq

/-- Number of bytes of a symbolic byte string, following the real output sizes
of the primitives: an AES-GCM ciphertext is plaintext + 16-byte tag, an
RSA-2048-OAEP ciphertext is 256 bytes, an exported AES-256 key is 32 bytes,
and an exported private-key JWK is some fixed positive size (only positivity
matters; 512 is a placeholder for the JWK text length). -/
def Bytes.blen : Bytes → Nat
  | .raw l => l.length
  | .utf8 s => s.utf8ByteSize
  | .json v => v.stringifyLen
  | .jwkPriv _ => 512
  | .rawKey _ => 32
  | .aesGcmCt _ _ pt => pt.blen + 16
  | .rsaOaepCt _ _ => 256

/-- Length of the base64 string `btoa` produces for `n` input bytes
(`arrayBufferToBase64`): `4 * ceil(n / 3)` including padding. -/
def b64Len (b : Bytes) : Nat := 4 * ((b.blen + 2) / 3)

/-- `crypto.getRandomValues(new Uint8Array(len))` drawing the entropy `e` from
the environment: the `len` little-endian base-256 digits of `e`.  Distinct
entropy below `256 ^ len` yields distinct outputs, which is the ideal model of
independent fresh randomness. -/
def randomBytes : Nat → Nat → List Nat
  | 0, _ => []
  | len + 1, e => e % 256 :: randomBytes len (e / 256)

/-- `deriveKey(password, salt)`: PBKDF2 (SHA-256, 310000 iterations) producing
an AES-GCM-256 key.  Ideal-KDF model: the key is a symbolic function of
exactly `(password, salt)`. -/
def deriveKey (password : String) (salt : List Nat) : Key := .pbkdf2 password salt

/-- `crypto.subtle.encrypt({name:"AES-GCM", iv}, key, pt)` (ideal AEAD): the
returned buffer (ciphertext including the authentication tag) is a term
recording the key, iv and plaintext. -/
def aesGcmEncrypt (key : Key) (iv : Bytes) (pt : Bytes) : Bytes := .aesGcmCt key iv pt

/-- `crypto.subtle.decrypt({name:"AES-GCM", iv}, key, ct)` (ideal AEAD):
succeeds exactly on a ciphertext produced under the same key and iv, returning
its plaintext; otherwise the tag check fails and WebCrypto throws an
`OperationError`, modelled as `none`. -/
def aesGcmDecrypt (key : Key) (iv : Bytes) : Bytes → Option Bytes
  | .aesGcmCt k i pt => if k = key ∧ i = iv then some pt else none
  | _ => none

/-- Error taxonomy of the decryption paths.  WebCrypto AES-GCM tag failure is
the spec's `IntegrityError`; a `JSON.parse` failure on decrypted plaintext is
the spec's `FormatError` (a JS `SyntaxError`); the defensive pre-crypto
structure checks throw plain `Error`s, the spec's `InvalidEnvelopeError`;
`rsaError` / `dataError` are RSA-OAEP decryption and `importKey` failures. -/
inductive CryptoError where
  | integrityError
  | formatError
  | rsaError
  | dataError
  | invalidEnvelope (msg : String)
deriving DecidableEq

deriving instance DecidableEq for Except

/-- The symmetric envelope wire shape: `{ ciphertext: number[], iv: number[] }`. -/
structure EncryptedEnvelope where
  ciphertext : Bytes
  iv : List Nat
deriving DecidableEq

/-- `encryptEntry(entry, password, salt)` (crypto.ts:37-57): serialize the
entry with `JSON.stringify` + `TextEncoder`, derive the key, draw a fresh
96-bit iv, AES-GCM-encrypt.  `ivEntropy` is the randomness consumed by
`crypto.getRandomValues(new Uint8Array(12))`. -/
def encryptEntry (entry : JsonValue) (password : String) (salt : List Nat)
    (ivEntropy : Nat) : EncryptedEnvelope :=
  let key := deriveKey password salt
  let iv := randomBytes 12 ivEntropy
  let plaintext := Bytes.json entry
  { ciphertext := aesGcmEncrypt key (.raw iv) plaintext, iv := iv }

/-- `TextDecoder().decode` followed by `JSON.parse` on decrypted plaintext
bytes: succeeds exactly on the serialization of a JSON value. -/
def jsonParseBytes : Bytes → Option JsonValue
  | .json v => some v
  | _ => none

/-- `decryptEntry(encrypted, password, salt)` (crypto.ts:62-82): derive the
same key, AES-GCM-decrypt (tag failure throws `OperationError`, the
`IntegrityError`), then `JSON.parse` the decoded plaintext (failure throws
`SyntaxError`, the `FormatError`). -/
def decryptEntry (encrypted : EncryptedEnvelope) (password : String)
    (salt : List Nat) : Except CryptoError JsonValue :=
  let key := deriveKey password salt
  match aesGcmDecrypt key (.raw encrypted.iv) encrypted.ciphertext with
  | none => .error .integrityError
  | some pt =>
    match jsonParseBytes pt with
    | none => .error .formatError
    | some v => .ok v

/-- `generateRSAKeyPair()` (crypto.ts:182-198): a 2048-bit RSA-OAEP/SHA-256
pair, both halves exported as JWK.  The pair is identified by its generation
randomness, so the private half matches exactly its own public half. -/
structure RSAKeyPair where
  publicKey : RSAPublicKey
  privateKey : RSAPrivateKey
deriving DecidableEq

def generateRSAKeyPair (seed : Nat) : RSAKeyPair := ⟨⟨seed⟩, ⟨seed⟩⟩

/-- `crypto.subtle.generateKey({name:"AES-GCM", length:256})`. -/
def generateAesKey (seed : Nat) : Key := .aesFresh seed

/-- `crypto.subtle.exportKey("raw", aesKey)`. -/
def exportRawKey (k : Key) : Bytes := .rawKey k

/-- `crypto.subtle.importKey("raw", buffer, {name:"AES-GCM"}, ...)`: in the
symbolic model only genuinely exported keys re-import; anything else fails
with a `DataError`. -/
def importRawAesKey : Bytes → Option Key
  | .rawKey k => some k
  | _ => none

/-- `crypto.subtle.encrypt({name:"RSA-OAEP"}, publicKey, pt)`. -/
def rsaOaepEncrypt (pub : RSAPublicKey) (pt : Bytes) : Bytes := .rsaOaepCt pub.seed pt

/-- `crypto.subtle.decrypt({name:"RSA-OAEP"}, privateKey, ct)`: succeeds
exactly on a ciphertext made for the matching public key. -/
def rsaOaepDecrypt (priv : RSAPrivateKey) : Bytes → Option Bytes
  | .rsaOaepCt s pt => if s = priv.seed then some pt else none
  | _ => none

/-- `TextDecoder().decode` of plaintext bytes.  Only UTF-8-encoded strings have
a concrete character expansion in the symbolic model; `TextDecoder` never
throws, so the function is total. -/
def textDecode : Bytes → String
  | .utf8 s => s
  | _ => ""

/-- The hybrid-envelope wire shape `{ ciphertext, iv, encryptedKey }`
(calendar-api.ts:9-13).  Each component is a base64 string on the wire,
represented by the bytes it encodes; `none` models a missing / `undefined` /
`null` component (`some b` with `b.blen = 0` is the empty string). -/
structure EncryptedField where
  ciphertext : Option Bytes
  iv : Option Bytes
  encryptedKey : Option Bytes
deriving DecidableEq

/-- JS truthiness of an optional base64-string component: `undefined`, `null`
and the empty string `""` are falsy. -/
def componentFalsy : Option Bytes → Bool
  | none => true
  | some b => b.blen == 0

/-- `encryptField(plaintext, publicKeyJwk)` (event encryption module, lines
66-104): generate a fresh one-time AES-256 key and fresh 96-bit iv,
AES-GCM-encrypt the plaintext, export the one-time key raw and RSA-OAEP-wrap
it under the recipient's public key; return the three parts base64-encoded.
`keySeed` and `ivEntropy` are the randomness of `generateKey` and
`getRandomValues`. -/
def encryptField (plaintext : String) (publicKeyJwk : RSAPublicKey)
    (keySeed ivEntropy : Nat) : EncryptedField :=
  let aesKey := generateAesKey keySeed
  let iv := randomBytes 12 ivEntropy
  let encryptedData := aesGcmEncrypt aesKey (.raw iv) (.utf8 plaintext)
  let aesKeyRaw := exportRawKey aesKey
  let encryptedKey := rsaOaepEncrypt publicKeyJwk aesKeyRaw
  { ciphertext := some encryptedData
    iv := some (.raw iv)
    encryptedKey := some encryptedKey }

/-- `decryptField(encrypted, privateKeyJwk)` (event encryption module, lines
109-153).  First the defensive structure check
`!encrypted || !encrypted.encryptedKey || !encrypted.ciphertext || !encrypted.iv`
(a missing component or the falsy empty string), then the (unreachable, since
an empty base64 string is already falsy) emptiness check on the base64 string
lengths, and only then the cryptographic pipeline: RSA-OAEP-unwrap the
one-time key, import it, AES-GCM-decrypt, decode. -/
def decryptField (encrypted : Option EncryptedField) (privateKeyJwk : RSAPrivateKey) :
    Except CryptoError String :=
  match encrypted with
  | none => .error (.invalidEnvelope "Invalid encrypted field structure")
  | some env =>
    if componentFalsy env.encryptedKey || componentFalsy env.ciphertext ||
        componentFalsy env.iv then
      .error (.invalidEnvelope "Invalid encrypted field structure")
    else
      match env.encryptedKey, env.ciphertext, env.iv with
      | some ek, some ct, some ivb =>
        if b64Len ek == 0 || b64Len ct == 0 then
          .error (.invalidEnvelope "Encrypted data is empty")
        else
          match rsaOaepDecrypt privateKeyJwk ek with
          | none => .error .rsaError
          | some aesKeyRaw =>
            match importRawAesKey aesKeyRaw with
            | none => .error .dataError
            | some aesKey =>
              match aesGcmDecrypt aesKey ivb ct with
              | none => .error .integrityError
              | some pt => .ok (textDecode pt)
      | _, _, _ => .error (.invalidEnvelope "Invalid encrypted field structure")

/-- `decryptEmailField(encrypted, privateKeyJwk)` (crypto.ts:292-345): the same
hybrid pipeline with its own defensive checks: a nullish envelope, then
missing components, then the (again unreachable) base64 emptiness check. -/
def decryptEmailField (encrypted : Option EncryptedField) (privateKeyJwk : RSAPrivateKey) :
    Except CryptoError String :=
  match encrypted with
  | none => .error (.invalidEnvelope "No encrypted data provided")
  | some env =>
    if componentFalsy env.encryptedKey || componentFalsy env.ciphertext ||
        componentFalsy env.iv then
      .error (.invalidEnvelope "Invalid encrypted field structure: missing required properties")
    else
      match env.encryptedKey, env.ciphertext, env.iv with
      | some ek, some ct, some ivb =>
        if b64Len ek == 0 || b64Len ct == 0 then
          .error (.invalidEnvelope "Encrypted data is empty")
        else
          match rsaOaepDecrypt privateKeyJwk ek with
          | none => .error .rsaError
          | some aesKeyRaw =>
            match importRawAesKey aesKeyRaw with
            | none => .error .dataError
            | some aesKey =>
              match aesGcmDecrypt aesKey ivb ct with
              | none => .error .integrityError
              | some pt => .ok (textDecode pt)
      | _, _, _ =>
        .error (.invalidEnvelope "Invalid encrypted field structure: missing required properties")

/-- Reminder shape on calendar events (calendar-api.ts:15-19). -/
structure Reminder where
  type : String
  minutesBefore : Nat
  sent : Option Bool
deriving DecidableEq

/-- A populated `event.calendar` sub-object (calendar-api.ts:35-39). -/
structure CalRef where
  refId : String
  color : String
  name : EncryptedField
deriving DecidableEq

/-- `event.calendar` is either a populated object or a bare id string. -/
inductive CalendarField where
  | id (s : String)
  | populated (c : CalRef)
deriving DecidableEq

/-- `Calendar` (calendar-api.ts:21-30).  TS field `_id` is `mongoId` here. -/
structure Calendar where
  mongoId : String
  user : String
  name : EncryptedField
  color : String
  isDefault : Bool
  isVisible : Bool
  createdAt : String
  updatedAt : String
deriving DecidableEq

/-- `CalendarEvent` (calendar-api.ts:32-54). -/
structure CalendarEvent where
  mongoId : String
  user : String
  calendar : CalendarField
  title : EncryptedField
  description : Option EncryptedField
  location : Option EncryptedField
  startTime : String
  endTime : String
  isAllDay : Bool
  timezone : String
  recurrence : Option String
  sourceType : String
  sourceEmail : Option String
  reminders : List Reminder
  status : String
  createdAt : String
  updatedAt : String
deriving DecidableEq

/-- `DecryptedCalendar` (calendar-api.ts:56-65). -/
structure DecryptedCalendar where
  mongoId : String
  user : String
  name : String
  color : String
  isDefault : Bool
  isVisible : Bool
  createdAt : String
  updatedAt : String
deriving DecidableEq

/-- `DecryptedEvent` (calendar-api.ts:67-81); `new Date(s)` is modelled by its
source string. -/
structure DecryptedEvent where
  mongoId : String
  calendarId : String
  calendarColor : String
  title : String
  description : String
  location : String
  startTime : String
  endTime : String
  isAllDay : Bool
  timezone : String
  reminders : List Reminder
  status : String
  sourceType : String
deriving DecidableEq

/-- `decryptCalendar(calendar, privateKeyJwk)` (event encryption module, lines
158-174): decrypt the `name` field; a failure propagates to the caller. -/
def decryptCalendar (calendar : Calendar) (privateKeyJwk : RSAPrivateKey) :
    Except CryptoError DecryptedCalendar :=
  match decryptField (some calendar.name) privateKeyJwk with
  | .error e => .error e
  | .ok name =>
    .ok { mongoId := calendar.mongoId, user := calendar.user, name := name
          color := calendar.color, isDefault := calendar.isDefault
          isVisible := calendar.isVisible, createdAt := calendar.createdAt
          updatedAt := calendar.updatedAt }

/-- `decryptEvent(event, privateKeyJwk)` (event encryption module, lines
179-230): the title decryption is not guarded, so its failure propagates; the
optional description and location are each decrypted inside a `try`/`catch`
that logs a `console.warn` and leaves the earlier `""` default in place. -/
def decryptEvent (event : CalendarEvent) (privateKeyJwk : RSAPrivateKey) :
    Except CryptoError DecryptedEvent :=
  match decryptField (some event.title) privateKeyJwk with
  | .error e => .error e
  | .ok title =>
    let description :=
      match event.description with
      | none => ""
      | some d =>
        match decryptField (some d) privateKeyJwk with
        | .ok s => s
        | .error _ => ""
    let location :=
      match event.location with
      | none => ""
      | some l =>
        match decryptField (some l) privateKeyJwk with
        | .ok s => s
        | .error _ => ""
    let calendarId :=
      match event.calendar with
      | .id s => s
      | .populated c => c.refId
    let calendarColor :=
      match event.calendar with
      | .id _ => "#3b82f6"
      | .populated c => c.color
    .ok { mongoId := event.mongoId, calendarId := calendarId
          calendarColor := calendarColor, title := title
          description := description, location := location
          startTime := event.startTime, endTime := event.endTime
          isAllDay := event.isAllDay, timezone := event.timezone
          reminders := event.reminders, status := event.status
          sourceType := event.sourceType }

/-- `decryptEvents(events, privateKeyJwk)` (event encryption module, lines
235-251): iterate, `try` each event, push the successes, and on a per-event
failure `console.error` the event id and continue.  The second component is
the log of failed event ids (the `console.error` stream); the function is
total, so no exception escapes the batch call. -/
def decryptEvents (events : List CalendarEvent) (privateKeyJwk : RSAPrivateKey) :
    List DecryptedEvent × List String :=
  match events with
  | [] => ([], [])
  | ev :: rest =>
    let tail := decryptEvents rest privateKeyJwk
    match decryptEvent ev privateKeyJwk with
    | .ok d => (d :: tail.1, tail.2)
    | .error _ => (tail.1, ev.mongoId :: tail.2)

/-- `decryptCalendars(calendars, privateKeyJwk)` (event encryption module,
lines 256-272): same log-and-skip iteration over calendars. -/
def decryptCalendars (calendars : List Calendar) (privateKeyJwk : RSAPrivateKey) :
    List DecryptedCalendar × List String :=
  match calendars with
  | [] => ([], [])
  | c :: rest =>
    let tail := decryptCalendars rest privateKeyJwk
    match decryptCalendar c privateKeyJwk with
    | .ok d => (d :: tail.1, tail.2)
    | .error _ => (tail.1, c.mongoId :: tail.2)

/-- A byte of the output of one of the digest/derivation primitives used by
the authentication-verifier pipeline, in the ideal-PRF model:
`pbkdf2 password salt i` is the i-th byte of
`deriveBits(PBKDF2, SHA-256, 310000 iterations)(password, salt)` and
`sha256 msg i` is the i-th digest byte of SHA-256 over the hex string encoding
the bytes `msg`. -/
inductive HByte where
  | pbkdf2 (password : String) (salt : List Nat) (i : Nat)
  | sha256 (msg : List HByte) (i : Nat)

/-- A JS string that is the lowercase-hex encoding of a list of bytes, each
below 256, represented by the encoded bytes.  Both hex strings of the
pipeline (the hex of the derived auth key and the hex SHA-256 digest that
`sha256()` returns) have this shape. -/
structure HexStr where
  bytes : List HByte

/-- Character length of a hex string: `b.toString(16).padStart(2, "0")`
contributes exactly two characters for every byte `b < 256`. -/
def HexStr.strLength (h : HexStr) : Nat := 2 * h.bytes.length

/-- The hex-encoding loop shared by `deriveAuthKey`'s caller and `sha256`
(crypto.ts:124-126 and 137-139):
`Array.from(bytes).map((b) => b.toString(16).padStart(2, "0")).join("")`. -/
def hexEncodeBytes (bytes : List HByte) : HexStr := ⟨bytes⟩

/-- `deriveAuthKey(password, salt)` (crypto.ts:87-114): append the
domain-separation suffix `"|auth"` to the password, then
`deriveBits(PBKDF2, SHA-256, 310000 iterations, 256 bits)` — 32 output
bytes. -/
def deriveAuthKey (password : String) (salt : List Nat) : List HByte :=
  (List.range 32).map (HByte.pbkdf2 (password ++ "|auth") salt)

/-- `sha256(str)` (crypto.ts:119-127): the SHA-256 digest (32 bytes)
hex-encoded. -/
def sha256 (msg : HexStr) : HexStr :=
  hexEncodeBytes ((List.range 32).map (HByte.sha256 msg.bytes))

/-- `getAuthKeyHash(password, salt)` (crypto.ts:132-142): hex-encode the
derived auth key and hash the hex string once more with SHA-256. -/
def getAuthKeyHash (password : String) (salt : List Nat) : HexStr :=
  sha256 (hexEncodeBytes (deriveAuthKey password salt))

/-- `encryptPrivateKey(privateKey, password, salt)` (crypto.ts:207-227):
`JSON.stringify` the private JWK and AES-GCM-encrypt it under the
password-derived key with a fresh 96-bit iv. -/
def encryptPrivateKey (privateKey : RSAPrivateKey) (password : String)
    (salt : List Nat) (ivEntropy : Nat) : EncryptedEnvelope :=
  let key := deriveKey password salt
  let iv := randomBytes 12 ivEntropy
  { ciphertext := aesGcmEncrypt key (.raw iv) (.jwkPriv privateKey), iv := iv }

/-- The session-storage cells used by src/lib/auth.ts (keys "masterPassword",
"salt", "publicKey", "encryptedPrivateKey", "decryptedPrivateKey") plus the
localStorage "token" cell.  Each cell holds its parsed content or `none`
when absent. -/
structure SessionStore where
  masterPassword : Option String
  salt : Option (List Nat)
  publicKey : Option RSAPublicKey
  encryptedPrivateKey : Option EncryptedEnvelope
  decryptedPrivateKey : Option RSAPrivateKey
  token : Option String
deriving DecidableEq

/-- `setMasterPassword` (auth.ts:20-24). -/
def setMasterPassword (password : String) (s : SessionStore) : SessionStore :=
  { s with masterPassword := some password }

/-- `getMasterPassword` (auth.ts:29-34). -/
def getMasterPassword (s : SessionStore) : Option String := s.masterPassword

/-- `getSalt` (auth.ts:57-65). -/
def getSalt (s : SessionStore) : Option (List Nat) := s.salt

/-- `isVaultUnlocked` (auth.ts:81-83):
`getMasterPassword() !== null && getSalt() !== null`. -/
def isVaultUnlocked (s : SessionStore) : Bool :=
  (getMasterPassword s).isSome && (getSalt s).isSome

/-- `setPublicKey` (auth.ts:120-124). -/
def setPublicKey (key : RSAPublicKey) (s : SessionStore) : SessionStore :=
  { s with publicKey := some key }

/-- `setEncryptedPrivateKey` (auth.ts:146-150). -/
def setEncryptedPrivateKey (key : EncryptedEnvelope) (s : SessionStore) : SessionStore :=
  { s with encryptedPrivateKey := some key }

/-- `getEncryptedPrivateKey` (auth.ts:155-167): returns the stored envelope
only when both `ciphertext` and `iv` carry actual data. -/
def getEncryptedPrivateKey (s : SessionStore) : Option EncryptedEnvelope :=
  match s.encryptedPrivateKey with
  | none => none
  | some parsed =>
    if parsed.ciphertext.blen > 0 ∧ parsed.iv.length > 0 then some parsed else none

/-- `setDecryptedPrivateKey` (auth.ts:172-176). -/
def setDecryptedPrivateKey (key : RSAPrivateKey) (s : SessionStore) : SessionStore :=
  { s with decryptedPrivateKey := some key }

/-- The six removals `clearAuthData` (auth.ts:102-111) performs, in source
order: five `sessionStorage.removeItem` calls and one
`localStorage.removeItem("token")`. -/
def clearAuthDataSteps : List (SessionStore → SessionStore) :=
  [ fun s => { s with masterPassword := none },
    fun s => { s with salt := none },
    fun s => { s with publicKey := none },
    fun s => { s with encryptedPrivateKey := none },
    fun s => { s with decryptedPrivateKey := none },
    fun s => { s with token := none } ]

def runSteps (steps : List (SessionStore → SessionStore)) (s : SessionStore) : SessionStore :=
  steps.foldl (fun st f => f st) s

/-- `clearAuthData()` run to completion. -/
def clearAuthData (s : SessionStore) : SessionStore := runSteps clearAuthDataSteps s

/-- The states reachable during `clearAuthData`: after each prefix of its
removals (index 0 is the initial state, index 6 the final state). -/
def clearAuthDataTrace (s : SessionStore) : List SessionStore :=
  (List.range (clearAuthDataSteps.length + 1)).map
    (fun k => runSteps (clearAuthDataSteps.take k) s)

/-- Whether a session store still holds any cached key material (any of the
five key cells of the spec's VaultSessionState). -/
def holdsKeyMaterial (s : SessionStore) : Bool :=
  s.masterPassword.isSome || s.salt.isSome || s.publicKey.isSome ||
    s.encryptedPrivateKey.isSome || s.decryptedPrivateKey.isSome

/-- The client state seen by the unlock flow: the storage cells plus the
`isVaultUnlocked` flag of the React `useAuth` state. -/
structure VaultState where
  store : SessionStore
  reactUnlocked : Bool
deriving DecidableEq

/-- Outcome of the `authApi.setupPKI` round trip: the server either persists
the pair and echoes back the stored encrypted private key, or the request
fails and the `await` throws. -/
inductive UploadResult where
  | ok (returnedKey : EncryptedEnvelope)
  | err
deriving DecidableEq

/-- The first-use custody branch of `unlockVault` (useAuth, aliases page
lines 540-595), as the list of states after each store-mutating statement,
for a run in which the salt is cached, the server accepted the verifier, and
`getEncryptedPrivateKey()` found nothing.  In source order: cache the master
password, generate the RSA pair and wrap its private half (pure), `await
authApi.setupPKI` — if the upload throws, `unlockVault` exits with the
exception and the generated pair is dropped; on success store the public key,
the server-returned encrypted private key and the plain private key, then set
the React `isVaultUnlocked` flag.  The push round trip completes between the
second and third listed states. -/
def unlockVaultFirstUseStates (pw : String) (genSeed : Nat)
    (upload : UploadResult) (v : VaultState) : List VaultState :=
  let s1 : VaultState := { v with store := setMasterPassword pw v.store }
  let pair := generateRSAKeyPair genSeed
  match upload with
  | .err => [v, s1]
  | .ok returned =>
    let s2 : VaultState := { s1 with store := setPublicKey pair.publicKey s1.store }
    let s3 : VaultState := { s2 with store := setEncryptedPrivateKey returned s2.store }
    let s4 : VaultState :=
      { s3 with store := setDecryptedPrivateKey pair.privateKey s3.store }
    let s5 : VaultState := { s4 with reactUnlocked := true }
    [v, s1, s2, s3, s4, s5]

/-- The states of the run reached before the `setupPKI` push round trip
completes: the initial state and the state after `setMasterPassword`. -/
def unlockVaultPrePushStates (pw : String) (v : VaultState) : List VaultState :=
  [v, { v with store := setMasterPassword pw v.store }]

/-- A `getRandomValues` draw always fills the requested number of bytes. -/
theorem randomBytes_length (len e : Nat) : (randomBytes len e).length = len := by
  induction len generalizing e with
  | zero => rfl
  | succ n ih => simp [randomBytes, ih]

/-- Distinct entropy below `256 ^ len` yields distinct random byte strings:
the digits of a number below the radix bound determine it. -/
theorem randomBytes_injOn (len : Nat) :
    ∀ e1 e2, e1 < 256 ^ len → e2 < 256 ^ len →
      randomBytes len e1 = randomBytes len e2 → e1 = e2 := by
  induction len with
  | zero =>
    intro e1 e2 h1 h2 _
    simp only [pow_zero, Nat.lt_one_iff] at h1 h2
    omega
  | succ n ih =>
    intro e1 e2 h1 h2 h
    simp only [randomBytes, List.cons.injEq] at h
    obtain ⟨hmod, htail⟩ := h
    rw [pow_succ'] at h1 h2
    have hq := ih _ _ (Nat.div_lt_of_lt_mul h1) (Nat.div_lt_of_lt_mul h2) htail
    omega

/-- C1: for every serializable record `r`, secret string `s`, and 16-byte salt
`a`, decrypting the envelope produced by `encryptEntry` with the same secret
and salt returns the original record:
`decryptEntry(encryptEntry(r, s, a), s, a) == r`. -/
theorem decryptEntry_encryptEntry_roundtrip (r : JsonValue) (s : String)
    (a : List Nat) (ivEntropy : Nat) (_ha : a.length = 16) :
    decryptEntry (encryptEntry r s a ivEntropy) s a = Except.ok r := by
  simp [decryptEntry, encryptEntry, deriveKey, aesGcmEncrypt, aesGcmDecrypt, jsonParseBytes]

/-- A concrete 16-byte salt. -/
def salt16 : List Nat := List.replicate 16 7

/-- A 16-byte salt differing from `salt16` in exactly its first byte. -/
def salt16b : List Nat := 8 :: List.replicate 15 7

/-- Witness for C1 at a concrete record, secret and 16-byte salt. -/
theorem decryptEntry_encryptEntry_roundtrip_witness :
    salt16.length = 16 ∧
      decryptEntry (encryptEntry (JsonValue.str "alias") "pw" salt16 99) "pw" salt16 =
        Except.ok (JsonValue.str "alias") :=
  ⟨by decide, decryptEntry_encryptEntry_roundtrip _ _ _ _ (by decide)⟩

/-- C2: for every string `p` and every RSA-OAEP key pair generated by
`generateRSAKeyPair`, hybrid decryption inverts hybrid encryption:
`decryptField(encryptField(p, pub), priv) == p`. -/
theorem decryptField_encryptField_roundtrip (p : String) (seed keySeed ivEntropy : Nat) :
    decryptField
        (some (encryptField p (generateRSAKeyPair seed).publicKey keySeed ivEntropy))
        (generateRSAKeyPair seed).privateKey = Except.ok p := by
  simp [decryptField, encryptField, generateRSAKeyPair, generateAesKey, exportRawKey,
    rsaOaepEncrypt, rsaOaepDecrypt, importRawAesKey, aesGcmEncrypt, aesGcmDecrypt,
    componentFalsy, b64Len, Bytes.blen, textDecode, randomBytes_length]
  omega

/-- C3: decrypting an entry with a different secret fails the AES-GCM tag
check and yields the integrity error, never a record, and that error is
distinct from the deserialization (format) error. -/
theorem decryptEntry_wrong_secret_integrityError (r : JsonValue) (s s2 : String)
    (a : List Nat) (ivEntropy : Nat) (_ha : a.length = 16) (hne : s2 ≠ s) :
    decryptEntry (encryptEntry r s a ivEntropy) s2 a =
        Except.error CryptoError.integrityError ∧
      CryptoError.integrityError ≠ CryptoError.formatError := by
  have hs : s ≠ s2 := fun h => hne h.symm
  refine ⟨?_, by decide⟩
  simp [decryptEntry, encryptEntry, deriveKey, aesGcmEncrypt, aesGcmDecrypt, hs]

/-- Witness for C3 at concrete record, secrets and 16-byte salt. -/
theorem decryptEntry_wrong_secret_integrityError_witness :
    salt16.length = 16 ∧ ("guess" : String) ≠ "pw" ∧
      decryptEntry (encryptEntry (JsonValue.str "alias") "pw" salt16 99) "guess" salt16 =
        Except.error CryptoError.integrityError :=
  ⟨by decide, by decide,
    (decryptEntry_wrong_secret_integrityError _ _ _ _ _ (by decide) (by decide)).1⟩

/-- C6: two runs of `encryptEntry` (and of `encryptField`) on the same inputs
that draw distinct fresh randomness return a fresh 12-byte iv each time, the
two ivs differ, and the two ciphertexts differ even though the plaintext is
identical, so an iv is never reused with the same key. -/
theorem encrypt_fresh_iv_uniqueness (r : JsonValue) (p : String) (a : List Nat)
    (fp : String) (pub : RSAPublicKey) (keySeed : Nat) (e1 e2 : Nat)
    (h1 : e1 < 256 ^ 12) (h2 : e2 < 256 ^ 12) (hne : e1 ≠ e2) :
    (encryptEntry r p a e1).iv.length = 12 ∧
      (encryptEntry r p a e2).iv.length = 12 ∧
      (encryptEntry r p a e1).iv ≠ (encryptEntry r p a e2).iv ∧
      (encryptEntry r p a e1).ciphertext ≠ (encryptEntry r p a e2).ciphertext ∧
      (encryptField fp pub keySeed e1).iv ≠ (encryptField fp pub keySeed e2).iv ∧
      (encryptField fp pub keySeed e1).ciphertext ≠
        (encryptField fp pub keySeed e2).ciphertext := by
  have hiv : randomBytes 12 e1 ≠ randomBytes 12 e2 :=
    fun h => hne (randomBytes_injOn 12 e1 e2 h1 h2 h)
  refine ⟨randomBytes_length 12 e1, randomBytes_length 12 e2, ?_, ?_, ?_, ?_⟩ <;>
    simp [encryptEntry, encryptField, aesGcmEncrypt, deriveKey, generateAesKey,
      rsaOaepEncrypt, exportRawKey, hiv]

/-- Witness for C6 at concrete inputs with two distinct entropy draws. -/
theorem encrypt_fresh_iv_uniqueness_witness :
    (0 : Nat) < 256 ^ 12 ∧ (1 : Nat) < 256 ^ 12 ∧ (0 : Nat) ≠ 1 ∧
      (encryptEntry (JsonValue.str "alias") "pw" salt16 0).iv ≠
        (encryptEntry (JsonValue.str "alias") "pw" salt16 1).iv :=
  ⟨by decide, by decide, by decide,
    (encrypt_fresh_iv_uniqueness (JsonValue.str "alias") "pw" salt16 "f" ⟨5⟩ 0 0 1
      (by decide) (by decide) (by decide)).2.2.1⟩

/-- C5: the auth verifier hash is SHA-256 of the hex encoding of the 256-bit
PBKDF2 derivation of `(s ++ "|auth", a)`; it is a 64-character hex string,
deterministic, and changes when the (16-byte) salt changes in any byte. -/
theorem getAuthKeyHash_spec (s : String) (a : List Nat) (_ha : a.length = 16) :
    getAuthKeyHash s a =
        sha256 (hexEncodeBytes ((List.range 32).map (HByte.pbkdf2 (s ++ "|auth") a))) ∧
      (deriveAuthKey s a).length = 32 ∧
      (getAuthKeyHash s a).strLength = 64 ∧
      getAuthKeyHash s a = getAuthKeyHash s a ∧
      ∀ a', a'.length = 16 → a' ≠ a → getAuthKeyHash s a' ≠ getAuthKeyHash s a := by
  refine ⟨rfl, by simp [deriveAuthKey], ?_, rfl, ?_⟩
  · simp [getAuthKeyHash, sha256, hexEncodeBytes, HexStr.strLength]
  · intro a' _ hne h
    apply hne
    unfold getAuthKeyHash sha256 hexEncodeBytes deriveAuthKey at h
    have hb := congrArg HexStr.bytes h
    simp only [List.map_inj_left] at hb
    have h0 := hb 0 (by decide)
    have hmsg : (List.range 32).map (HByte.pbkdf2 (s ++ "|auth") a') =
        (List.range 32).map (HByte.pbkdf2 (s ++ "|auth") a) := by
      injection h0
    simp only [List.map_inj_left] at hmsg
    have h1 := hmsg 0 (by decide)
    injection h1

/-- Witness for C5: concrete secret and two 16-byte salts differing in one
byte give different hashes. -/
theorem getAuthKeyHash_spec_witness :
    salt16.length = 16 ∧ salt16b.length = 16 ∧ salt16b ≠ salt16 ∧
      (getAuthKeyHash "correct horse battery staple" salt16).strLength = 64 ∧
      getAuthKeyHash "correct horse battery staple" salt16b ≠
        getAuthKeyHash "correct horse battery staple" salt16 :=
  ⟨by decide, by decide, by decide,
    (getAuthKeyHash_spec "correct horse battery staple" salt16 (by decide)).2.2.1,
    (getAuthKeyHash_spec "correct horse battery staple" salt16 (by decide)).2.2.2.2
      salt16b (by decide) (by decide)⟩

/-- Batch event decryption splits the input exactly: successes plus logged
failures account for every event, and the failure log is precisely the ids of
the events whose individual decryption fails, in order. -/
theorem decryptEvents_parts (events : List CalendarEvent) (priv : RSAPrivateKey) :
    (decryptEvents events priv).1.length + (decryptEvents events priv).2.length =
        events.length ∧
      (decryptEvents events priv).2 =
        (events.filter (fun ev => (decryptEvent ev priv).toOption.isNone)).map
          CalendarEvent.mongoId := by
  induction events with
  | nil => exact ⟨rfl, rfl⟩
  | cons ev rest ih =>
    obtain ⟨ih1, ih2⟩ := ih
    cases hev : decryptEvent ev priv with
    | ok d =>
      refine ⟨?_, ?_⟩
      · simp only [decryptEvents, hev, List.length_cons]
        omega
      · simp [decryptEvents, hev, List.filter_cons, Except.toOption, ih2]
    | error e =>
      refine ⟨?_, ?_⟩
      · simp only [decryptEvents, hev, List.length_cons]
        omega
      · simp [decryptEvents, hev, List.filter_cons, Except.toOption, ih2]

/-- Batch calendar decryption splits the input exactly, like
`decryptEvents_parts`. -/
theorem decryptCalendars_parts (cals : List Calendar) (priv : RSAPrivateKey) :
    (decryptCalendars cals priv).1.length + (decryptCalendars cals priv).2.length =
        cals.length ∧
      (decryptCalendars cals priv).2 =
        (cals.filter (fun c => (decryptCalendar c priv).toOption.isNone)).map
          Calendar.mongoId := by
  induction cals with
  | nil => exact ⟨rfl, rfl⟩
  | cons c rest ih =>
    obtain ⟨ih1, ih2⟩ := ih
    cases hc : decryptCalendar c priv with
    | ok d =>
      refine ⟨?_, ?_⟩
      · simp only [decryptCalendars, hc, List.length_cons]
        omega
      · simp [decryptCalendars, hc, List.filter_cons, Except.toOption, ih2]
    | error e =>
      refine ⟨?_, ?_⟩
      · simp only [decryptCalendars, hc, List.length_cons]
        omega
      · simp [decryptCalendars, hc, List.filter_cons, Except.toOption, ih2]

/-- C4: when exactly one record of a batch fails to decrypt, `decryptEvents`
and `decryptCalendars` return the other N-1 decrypted records, log exactly the
failed record's id, and (being total functions) let no exception escape the
batch call. -/
theorem batch_decrypt_isolation (events : List CalendarEvent) (cals : List Calendar)
    (priv : RSAPrivateKey)
    (hev : (events.filter (fun ev => (decryptEvent ev priv).toOption.isNone)).length = 1)
    (hcal : (cals.filter (fun c => (decryptCalendar c priv).toOption.isNone)).length = 1) :
    (decryptEvents events priv).1.length = events.length - 1 ∧
      (decryptEvents events priv).2 =
        (events.filter (fun ev => (decryptEvent ev priv).toOption.isNone)).map
          CalendarEvent.mongoId ∧
      (decryptEvents events priv).2.length = 1 ∧
      (decryptCalendars cals priv).1.length = cals.length - 1 ∧
      (decryptCalendars cals priv).2 =
        (cals.filter (fun c => (decryptCalendar c priv).toOption.isNone)).map
          Calendar.mongoId ∧
      (decryptCalendars cals priv).2.length = 1 := by
  obtain ⟨he1, he2⟩ := decryptEvents_parts events priv
  obtain ⟨hc1, hc2⟩ := decryptCalendars_parts cals priv
  have hel : (decryptEvents events priv).2.length = 1 := by
    rw [he2, List.length_map, hev]
  have hcl : (decryptCalendars cals priv).2.length = 1 := by
    rw [hc2, List.length_map, hcal]
  exact ⟨by omega, he2, hel, by omega, hc2, hcl⟩


/-- A concrete RSA key pair (generation randomness 5). -/
def pairW : RSAKeyPair := generateRSAKeyPair 5

/-- A well-formed hybrid envelope for the title "Meeting" under `pairW`. -/
def goodTitleW : EncryptedField := encryptField "Meeting" pairW.publicKey 1 2

/-- A structurally complete but corrupted hybrid envelope: its ciphertext
bytes are junk, so decryption fails after the structure checks pass. -/
def corruptFieldW : EncryptedField :=
  { ciphertext := some (.raw [1, 2, 3])
    iv := some (.raw [9, 9, 9])
    encryptedKey := some (.rsaOaepCt 5 (.raw [4])) }

/-- A calendar event that decrypts successfully. -/
def evGoodW : CalendarEvent :=
  { mongoId := "ev-good", user := "u", calendar := .id "cal1", title := goodTitleW
    description := none, location := none, startTime := "2026-01-01"
    endTime := "2026-01-02", isAllDay := false, timezone := "UTC"
    recurrence := none, sourceType := "manual", sourceEmail := none
    reminders := [], status := "confirmed", createdAt := "c", updatedAt := "u" }

/-- A calendar event whose title envelope is corrupted, so its decryption
fails. -/
def evBadW : CalendarEvent :=
  { evGoodW with mongoId := "ev-bad", title := corruptFieldW }

/-- A calendar that decrypts successfully. -/
def calGoodW : Calendar :=
  { mongoId := "cal-good", user := "u", name := goodTitleW, color := "#fff"
    isDefault := true, isVisible := true, createdAt := "c", updatedAt := "u" }

/-- A calendar whose name envelope is corrupted. -/
def calBadW : Calendar :=
  { calGoodW with mongoId := "cal-bad", name := corruptFieldW }

/-- Witness for C4: a two-event batch and a two-calendar batch, each with
exactly one corrupted record. -/
theorem batch_decrypt_isolation_witness :
    ([evGoodW, evBadW].filter
        (fun ev => (decryptEvent ev pairW.privateKey).toOption.isNone)).length = 1 ∧
      ([calGoodW, calBadW].filter
        (fun c => (decryptCalendar c pairW.privateKey).toOption.isNone)).length = 1 ∧
      ((decryptEvents [evGoodW, evBadW] pairW.privateKey).1.length =
          [evGoodW, evBadW].length - 1 ∧
        (decryptEvents [evGoodW, evBadW] pairW.privateKey).2 =
          ([evGoodW, evBadW].filter
            (fun ev => (decryptEvent ev pairW.privateKey).toOption.isNone)).map
            CalendarEvent.mongoId ∧
        (decryptEvents [evGoodW, evBadW] pairW.privateKey).2.length = 1 ∧
        (decryptCalendars [calGoodW, calBadW] pairW.privateKey).1.length =
          [calGoodW, calBadW].length - 1 ∧
        (decryptCalendars [calGoodW, calBadW] pairW.privateKey).2 =
          ([calGoodW, calBadW].filter
            (fun c => (decryptCalendar c pairW.privateKey).toOption.isNone)).map
            Calendar.mongoId ∧
        (decryptCalendars [calGoodW, calBadW] pairW.privateKey).2.length = 1) :=
  ⟨by decide, by decide,
    batch_decrypt_isolation [evGoodW, evBadW] [calGoodW, calBadW] pairW.privateKey
      (by decide) (by decide)⟩


/-- C7: an input envelope with a missing or empty component makes
`decryptField` fail with the invalid-envelope error, and its result does not
depend on the private key (so no RSA or AES operation is consulted); a
structurally complete envelope never produces an invalid-envelope error. -/
theorem decryptField_envelope_guard (env : EncryptedField) (priv : RSAPrivateKey) :
    ((componentFalsy env.encryptedKey || componentFalsy env.ciphertext ||
        componentFalsy env.iv) = true →
      decryptField (some env) priv =
          Except.error (CryptoError.invalidEnvelope "Invalid encrypted field structure") ∧
        ∀ priv', decryptField (some env) priv = decryptField (some env) priv') ∧
    ((componentFalsy env.encryptedKey || componentFalsy env.ciphertext ||
        componentFalsy env.iv) = false →
      ∀ msg, decryptField (some env) priv ≠
        Except.error (CryptoError.invalidEnvelope msg)) := by
  constructor
  · intro h
    refine ⟨?_, fun priv' => ?_⟩ <;> simp [decryptField, h]
  · intro h msg
    rcases hek : env.encryptedKey with _ | ek
    · rw [hek] at h
      simp [componentFalsy] at h
    rcases hct : env.ciphertext with _ | ct
    · rw [hct] at h
      simp [componentFalsy] at h
    rcases hiv : env.iv with _ | ivb
    · rw [hiv] at h
      simp [componentFalsy] at h
    rw [hek, hct, hiv] at h
    simp only [componentFalsy, Bool.or_eq_false_iff, beq_eq_false_iff_ne, ne_eq] at h
    obtain ⟨⟨hekn, hctn⟩, hivn⟩ := h
    have hguard : (componentFalsy (some ek) || componentFalsy (some ct) ||
        componentFalsy (some ivb)) = false := by
      simp only [componentFalsy, Bool.or_eq_false_iff, beq_eq_false_iff_ne, ne_eq]
      exact ⟨⟨hekn, hctn⟩, hivn⟩
    have hb64 : (b64Len ek == 0 || b64Len ct == 0) = false := by
      simp only [b64Len, Bool.or_eq_false_iff, beq_eq_false_iff_ne, ne_eq]
      omega
    simp only [decryptField, hek, hct, hiv, hguard, Bool.false_eq_true, if_false, hb64]
    cases hrsa : rsaOaepDecrypt priv ek with
    | none => simp
    | some kb =>
      cases himp : importRawAesKey kb with
      | none => simp [himp]
      | some k2 =>
        cases hdec : aesGcmDecrypt k2 ivb ct with
        | none => simp [himp, hdec]
        | some pt => simp [himp, hdec]

/-- A hybrid envelope whose ciphertext component is the empty string. -/
def emptyCtFieldW : EncryptedField :=
  { ciphertext := some (.raw []), iv := some (.raw [9, 9, 9])
    encryptedKey := some (.rsaOaepCt 5 (.raw [4])) }

/-- Witness for C7: an envelope with an empty ciphertext gets the
invalid-envelope error, and a structurally complete corrupted envelope does
not. -/
theorem decryptField_envelope_guard_witness :
    (componentFalsy emptyCtFieldW.encryptedKey || componentFalsy emptyCtFieldW.ciphertext ||
        componentFalsy emptyCtFieldW.iv) = true ∧
      decryptField (some emptyCtFieldW) pairW.privateKey =
        Except.error (CryptoError.invalidEnvelope "Invalid encrypted field structure") ∧
      (componentFalsy corruptFieldW.encryptedKey || componentFalsy corruptFieldW.ciphertext ||
        componentFalsy corruptFieldW.iv) = false ∧
      decryptField (some corruptFieldW) pairW.privateKey ≠
        Except.error (CryptoError.invalidEnvelope "Encrypted data is empty") :=
  ⟨by decide,
    ((decryptField_envelope_guard emptyCtFieldW pairW.privateKey).1 (by decide)).1,
    by decide,
    (decryptField_envelope_guard corruptFieldW pairW.privateKey).2 (by decide)
      "Encrypted data is empty"⟩


/-- A fully populated session store (all five key cells and the token). -/
def fullStoreW : SessionStore :=
  { masterPassword := some "hunter2", salt := some salt16
    publicKey := some pairW.publicKey
    encryptedPrivateKey := some (encryptPrivateKey pairW.privateKey "hunter2" salt16 3)
    decryptedPrivateKey := some pairW.privateKey
    token := some "tok" }

/-- C8 counterexample: `clearAuthData` is a sequence of six independent
removals, not a single atomic wipe: from a fully populated store, the state
reached after its first removal is a reachable intermediate state that is
neither the initial nor the final state and still holds partial key material
(the master password is gone while the decrypted private key is still
cached). -/
theorem clearAuthData_not_atomic_cex :
    runSteps (clearAuthDataSteps.take 1) fullStoreW ∈ clearAuthDataTrace fullStoreW ∧
      runSteps (clearAuthDataSteps.take 1) fullStoreW ≠ fullStoreW ∧
      runSteps (clearAuthDataSteps.take 1) fullStoreW ≠ clearAuthData fullStoreW ∧
      (runSteps (clearAuthDataSteps.take 1) fullStoreW).masterPassword = none ∧
      (runSteps (clearAuthDataSteps.take 1) fullStoreW).decryptedPrivateKey =
        some pairW.privateKey ∧
      holdsKeyMaterial (runSteps (clearAuthDataSteps.take 1) fullStoreW) = true := by
  decide

/-- C8 amended: the explicit lock/logout transition clears every cached key
(master password, salt, public key, wrapped and unwrapped private key) and the
token by the time `clearAuthData` completes, leaving no key material; but it
does so as a sequence of six independent removals rather than one atomic
wipe. -/
theorem clearAuthData_clears_all (s : SessionStore) :
    clearAuthData s =
        { masterPassword := none, salt := none, publicKey := none
          encryptedPrivateKey := none, decryptedPrivateKey := none, token := none } ∧
      holdsKeyMaterial (clearAuthData s) = false ∧
      clearAuthDataSteps.length = 6 := by
  exact ⟨rfl, rfl, rfl⟩

/-- The client state right after login step 1 for a first-use account: salt
and token cached, no master password, no keys, React flag locked. -/
def postLoginStateW : VaultState :=
  { store :=
      { masterPassword := none, salt := some salt16, publicKey := none
        encryptedPrivateKey := none, decryptedPrivateKey := none
        token := some "tok" }
    reactUnlocked := false }

/-- C9 counterexample: in the first-use custody flow the master password is
cached in session storage before the `setupPKI` push, so a state reached
before the push round trip completes already satisfies the session-level
`isVaultUnlocked()` predicate of auth.ts; and on upload failure the final
state differs from the initial one (the master password stays cached), so the
client state is not unchanged on error. -/
theorem unlockVault_prepush_unlocked_cex :
    ({ postLoginStateW with
        store := setMasterPassword "pw" postLoginStateW.store } : VaultState) ∈
        unlockVaultPrePushStates "pw" postLoginStateW ∧
      isVaultUnlocked (setMasterPassword "pw" postLoginStateW.store) = true ∧
      unlockVaultFirstUseStates "pw" 5 UploadResult.err postLoginStateW =
        [postLoginStateW,
          { postLoginStateW with store := setMasterPassword "pw" postLoginStateW.store }] ∧
      setMasterPassword "pw" postLoginStateW.store ≠ postLoginStateW.store := by
  decide

/-- C9 amended: in the first-use custody flow the React `isVaultUnlocked`
flag is set only by the final step, after the `setupPKI` push completes; if
the upload fails, the run stops after caching the master password, the
generated pair is discarded (the public-key, wrapped-key and unwrapped-key
cells are unchanged, so a retry regenerates a fresh pair), and the React flag
is untouched — but the master password itself is cached before the push, so
the session-storage predicate `isVaultUnlocked()` already reports unlocked in
a pre-push state. -/
theorem unlockVault_custody_amended (pw : String) (genSeed : Nat)
    (rk : EncryptedEnvelope) (v : VaultState) :
    unlockVaultFirstUseStates pw genSeed UploadResult.err v =
        [v, { v with store := setMasterPassword pw v.store }] ∧
      (setMasterPassword pw v.store).publicKey = v.store.publicKey ∧
      (setMasterPassword pw v.store).encryptedPrivateKey = v.store.encryptedPrivateKey ∧
      (setMasterPassword pw v.store).decryptedPrivateKey = v.store.decryptedPrivateKey ∧
      getEncryptedPrivateKey (setMasterPassword pw v.store) =
        getEncryptedPrivateKey v.store ∧
      (unlockVaultPrePushStates pw v).map VaultState.reactUnlocked =
        [v.reactUnlocked, v.reactUnlocked] ∧
      (unlockVaultFirstUseStates pw genSeed (UploadResult.ok rk) v).getLast? =
        some { v with
          store := setDecryptedPrivateKey (generateRSAKeyPair genSeed).privateKey
            (setEncryptedPrivateKey rk
              (setPublicKey (generateRSAKeyPair genSeed).publicKey
                (setMasterPassword pw v.store)))
          reactUnlocked := true } ∧
      isVaultUnlocked (setMasterPassword pw v.store) =
        (getSalt v.store).isSome := by
  refine ⟨rfl, rfl, rfl, rfl, rfl, rfl, rfl, ?_⟩
  simp [isVaultUnlocked, setMasterPassword, getMasterPassword, getSalt]


/-- An event with a decryptable title but corrupted description and location
envelopes. -/
def evDescBadW : CalendarEvent :=
  { evGoodW with mongoId := "ev-desc-bad", description := some corruptFieldW
                 location := some corruptFieldW }

/-- C10 counterexample: a failed field decryption inside `decryptEvent` does
yield `""` as the field's decrypted value: with a corrupted description and
location envelope (whose individual decryption fails), `decryptEvent` still
returns a record and its `description` and `location` are the empty string,
indistinguishable from legitimately empty content. -/
theorem decryptEvent_blank_field_cex :
    (decryptField (some corruptFieldW) pairW.privateKey).toOption = none ∧
      (decryptEvent evDescBadW pairW.privateKey).toOption.map
          DecryptedEvent.description = some "" ∧
      (decryptEvent evDescBadW pairW.privateKey).toOption.map
          DecryptedEvent.location = some "" := by
  decide

/-- An event whose title, description and location envelopes are all
corrupted. -/
def evAllBadW : CalendarEvent :=
  { evDescBadW with mongoId := "ev-all-bad", title := corruptFieldW }

/-- C10 amended: for an event whose description and location decryptions
fail, a failed title decryption propagates out of `decryptEvent` (the event
yields that error rather than a blank title), while a successful title
decryption returns the record with the decrypted title and the empty string
as the value of the failed description and location fields.  The two cases
are stated as separate implications on the title outcome, so each is proved
on its own satisfiable premise. -/
theorem decryptEvent_failed_fields_amended (event : CalendarEvent)
    (priv : RSAPrivateKey) (d l : EncryptedField) (ed el : CryptoError)
    (hd : event.description = some d)
    (hde : decryptField (some d) priv = Except.error ed)
    (hl : event.location = some l)
    (hle : decryptField (some l) priv = Except.error el) :
    (∀ e2, decryptField (some event.title) priv = Except.error e2 →
        decryptEvent event priv = Except.error e2) ∧
      ∀ t, decryptField (some event.title) priv = Except.ok t →
        ∃ rec, decryptEvent event priv = Except.ok rec ∧ rec.title = t ∧
          rec.description = "" ∧ rec.location = "" := by
  constructor
  · intro e2 he2
    simp only [decryptEvent, he2]
  · intro t ht
    simp only [decryptEvent, ht, hd, hde, hl, hle]
    exact ⟨_, rfl, rfl, rfl, rfl⟩

/-- Witness for C10's amended statement, exercising both implications: the
all-corrupted event propagates its title error, and the event with a good
title and corrupted description/location returns blank fields. -/
theorem decryptEvent_failed_fields_amended_witness :
    decryptField (some evAllBadW.title) pairW.privateKey =
        Except.error CryptoError.dataError ∧
      decryptEvent evAllBadW pairW.privateKey =
        Except.error CryptoError.dataError ∧
      decryptField (some evDescBadW.title) pairW.privateKey = Except.ok "Meeting" ∧
      ∃ rec, decryptEvent evDescBadW pairW.privateKey = Except.ok rec ∧
        rec.title = "Meeting" ∧ rec.description = "" ∧ rec.location = "" :=
  ⟨by decide,
    (decryptEvent_failed_fields_amended evAllBadW pairW.privateKey
        corruptFieldW corruptFieldW CryptoError.dataError CryptoError.dataError
        (by decide) (by decide) (by decide) (by decide)).1
      CryptoError.dataError (by decide),
    by decide,
    (decryptEvent_failed_fields_amended evDescBadW pairW.privateKey
        corruptFieldW corruptFieldW CryptoError.dataError CryptoError.dataError
        (by decide) (by decide) (by decide) (by decide)).2
      "Meeting" (by decide)⟩

end Sigil
